import Mathlib

/-!
Verification of the data_maintenance repository's diff/merge engine.

The development shallowly embeds the two relevant modules:

* `src/pages/data_merger.py` — the pandas record classifiers
  `find_new_records`, `find_deleted_records`, `find_changed_records`;
* `src/merge_process.py` — the SQL-driven merge executor
  `fetch_column_names`, the archive step, and `run_merge_process`.

Cell values are modelled by `PVal`.  A SQL NULL read into a pandas
DataFrame becomes either the float `NaN` (numeric columns) or the Python
object `None` (object/string columns); these two representations behave
differently under the pandas elementwise `!=` used by
`find_changed_records` (`NaN != NaN` is `True` while `None != None` is
`False`), so both are modelled.  Non-null values are modelled as strings
(numerals by their decimal text).

Pandas and SQL comparison semantics are embedded separately (`pdNe` for
the pandas elementwise `!=`, `sqlEq`/`sqlNe` for three-valued SQL
equality/inequality) because the classifier and the executor genuinely
use different semantics.

Database tables are association-list rows; the merge executor is
modelled as an explicit state-passing function over a `DBState`, with
the Python `try/except` rendered as `Except` and each
`with engine.begin()` block given transactional (all-or-nothing)
semantics, matching PostgreSQL's transactional DDL used by the code
(both front ends construct a `postgresql+psycopg2` engine).
-/

/-- A cell value as it appears in a pandas DataFrame read from PostgreSQL:
`nan` is a SQL NULL in a numeric column (float NaN), `pyNone` is a SQL NULL
in an object column (Python `None`), `str s` is a non-null value rendered
as text. -/
inductive PVal where
  | nan : PVal
  | pyNone : PVal
  | str : String → PVal
deriving DecidableEq, Repr

/-- Whether a value is a SQL NULL (either pandas representation). -/
def PVal.isNull : PVal → Bool
  | .str _ => false
  | _ => true

/-- The pandas elementwise `!=` used in `find_changed_records`
(`merged_df[field] != merged_df[target_col]`): `NaN` compares unequal to
everything including itself; Python `None` compares equal to itself and
unequal to everything else. -/
def pdNe : PVal → PVal → Bool
  | .nan, _ => true
  | _, .nan => true
  | .pyNone, .pyNone => false
  | .pyNone, .str _ => true
  | .str _, .pyNone => true
  | .str a, .str b => a != b

/-- Three-valued SQL equality as used in the executor's generated join
conditions (`s.col = t.col`): true only when both sides are non-null and
equal. -/
def sqlEq (a b : PVal) : Bool :=
  !a.isNull && !b.isNull && a == b

/-- Three-valued SQL inequality as used in the executor's change test
(`s.col <> t.col`): true only when both sides are non-null and differ. -/
def sqlNe (a b : PVal) : Bool :=
  !a.isNull && !b.isNull && a != b

/-- The executor's SQL activity test `t.status != 0`: true only when the
status is non-null and differs from `0` (numerals modelled as decimal
strings). -/
def sqlActive (v : PVal) : Bool :=
  !v.isNull && v != PVal.str "0"

/-- Python `str.lower()` / pandas `.str.lower()`, written directly on the
character data so that concrete instances evaluate by kernel reduction;
`strLower_eq_toLower` below identifies it with the library `String.toLower`. -/
def strLower (s : String) : String :=
  ⟨s.data.map Char.toLower⟩

/-- One DataFrame/table row: an ordered association of column name to
value (pandas keeps one value per column label per row). -/
abbrev Row := List (String × PVal)

/-- Value of a row at a column label (first matching entry, as for a
pandas row lookup by label). -/
def getCell (r : Row) (c : String) : PVal :=
  match r.find? (fun p => p.1 == c) with
  | some p => p.2
  | none => PVal.pyNone

/-- Replace the value of an existing column of a row, leaving all other
entries (and the column order) unchanged; a missing column is a no-op. -/
def setCell (r : Row) (c : String) (v : PVal) : Row :=
  r.map (fun p => if p.1 == c then (p.1, v) else p)

/-- The tuple of a row's values at the given key columns. -/
def keyOfRow (keys : List String) (r : Row) : List PVal :=
  keys.map (fun k => getCell r k)

/-- Lowercase every column label of a row
(`df.columns = df.columns.str.lower()` applied rowwise). -/
def lowerRow (r : Row) : Row :=
  r.map (fun p => (strLower p.1, p.2))

/-- A pandas DataFrame: ordered column labels plus rows. -/
structure DF where
  cols : List String
  rows : List Row
deriving Repr

/-- Lowercase all column labels of a DataFrame. -/
def lowerDF (df : DF) : DF :=
  ⟨df.cols.map strLower, df.rows.map lowerRow⟩

/-- Whether two rows agree on every key column, under the pandas merge
key equality (pandas matches `NaN` with `NaN` and `None` with `None` in
join keys). -/
def matchesOn (keys : List String) (a b : Row) : Bool :=
  keys.all (fun k => getCell a k == getCell b k)

/-- The classifiers' status-column discovery:
`next((col for col in df_target.columns if col.lower() == "status"), None)`. -/
def statusColOf (cols : List String) : Option String :=
  cols.find? (fun c => strLower c == "status")

/-- The per-row activity test of `find_deleted_records` /
`find_changed_records`: when a status column exists the row passes
`df_target[status_col] != "0"` (pandas semantics, comparing against the
Python string `"0"`); when none exists every row passes. -/
def isActiveRow (cols : List String) (r : Row) : Bool :=
  match statusColOf cols with
  | some sc => pdNe (getCell r sc) (PVal.str "0")
  | none => true

/-- The target rows surviving the classifiers' status filter. -/
def activeFilter (df : DF) : List Row :=
  df.rows.filter (fun r => isActiveRow df.cols r)

/-- `find_new_records(df_source, df_target, business_keys)` from
`src/pages/data_merger.py`: left-merge source against target on the
business keys with an indicator and keep the `left_only` rows, i.e. the
source rows with no key match anywhere in the target.  `none` models the
exception pandas raises when the key list is empty or a key column is
missing from either frame. -/
def find_new_records (S T : DF) (keys : List String) : Option (List Row) :=
  if keys.isEmpty || !(keys.all (fun k => S.cols.contains k)) ||
      !(keys.all (fun k => T.cols.contains k)) then
    none
  else
    some (S.rows.filter (fun s => !(T.rows.any (fun t => matchesOn keys s t))))

/-- `find_deleted_records(df_source, df_target, business_keys)` from
`src/pages/data_merger.py`: restrict the target to rows passing the
status filter, left-merge against `df_source[business_keys]` with an
indicator, and keep the `left_only` rows — the status-active target rows
with no key match in the source.  `none` models the exception pandas
raises when the key list is empty or a key column is missing. -/
def find_deleted_records (S T : DF) (keys : List String) : Option (List Row) :=
  if keys.isEmpty || !(keys.all (fun k => S.cols.contains k)) ||
      !(keys.all (fun k => T.cols.contains k)) then
    none
  else
    some ((activeFilter T).filter
      (fun t => !(S.rows.any (fun s => matchesOn keys t s))))

/-- The comparison-column computation of `find_changed_records`: after
lowercasing, the source columns not among the (lowercased) business keys
or exclusions, restricted to those also present in the target. -/
def compareFields (S T : DF) (keys excl : List String) : List String :=
  (((lowerDF S).cols.filter
      (fun c => !((keys.map strLower ++ excl.map strLower).contains c))).filter
    (fun c => (lowerDF T).cols.contains c))

/-- The join-and-test core of
`find_changed_records(df_source, df_target, business_keys, exclude_fields)`
from `src/pages/data_merger.py`, producing the matched (source, target)
row pairs that the function classifies as changed: lowercase all column
labels and the key/exclusion lists, filter the target by the status
test, inner-join source and filtered target on the lowercased keys, and
keep a pair when any comparison column differs under the pandas
elementwise `!=` (`pdNe`).  `none` models the exceptions the Python
raises: pandas raises on an empty or absent key list, and
`pd.concat(conditions, axis=1)` raises `ValueError` when
`compare_fields` is empty. -/
def find_changed_pairs (S T : DF) (keys excl : List String) : Option (List (Row × Row)) :=
  let Sl := lowerDF S
  let Tl := lowerDF T
  let keysl := keys.map strLower
  let tact := activeFilter Tl
  let cmp := compareFields S T keys excl
  if keys.isEmpty || !(keysl.all (fun k => Sl.cols.contains k)) ||
      !(keysl.all (fun k => Tl.cols.contains k)) then
    none
  else if cmp.isEmpty then
    none
  else
    some ((Sl.rows.flatMap
        (fun s => (tact.filter (fun t => matchesOn keysl s t)).map (fun t => (s, t)))).filter
      (fun p => cmp.any (fun c => pdNe (getCell p.1 c) (getCell p.2 c))))

/-- The final column projection of `find_changed_records`: drop every
column whose label contains the substring `"_target"`. -/
def dropTargetCols (r : Row) : Row :=
  r.filter (fun p => (p.1.splitOn "_target").length == 1)

/-- `find_changed_records` itself: the changed pairs' source sides, with
the `"_target"`-labelled columns dropped. -/
def find_changed_records (S T : DF) (keys excl : List String) : Option (List Row) :=
  (find_changed_pairs S T keys excl).map (fun l => l.map (fun p => dropTargetCols p.1))

/-- One row of the `table_registry.quarter_detail` control table
(status / effective-window / version stamps for one update type). -/
structure QuarterRow where
  status : String
  esd : String
  eed : String
  vid : String
deriving DecidableEq, Repr

/-- A PostgreSQL table: column names plus rows. -/
structure PgTable where
  cols : List String
  rows : List Row
deriving DecidableEq, Repr

/-- The database state seen by the merge executor: the user tables of the
working schema (keyed by table name) and the quarter-detail registry
rows (keyed by `Update_type`). -/
structure DBState where
  tables : List (String × PgTable)
  quarter : List (String × QuarterRow)
deriving DecidableEq, Repr

/-- Look a table up by name. -/
def lookupTable (db : DBState) (t : String) : Option PgTable :=
  (db.tables.find? (fun p => p.1 == t)).map (fun p => p.2)

/-- Whether a table of that name exists. -/
def tableExists (db : DBState) (t : String) : Bool :=
  (lookupTable db t).isSome

/-- Preconditions under which the archive step's
`ALTER TABLE ... RENAME TO <t>_bu` statement itself succeeds: the table
exists and the backup name is free. -/
def renameOk (db : DBState) (t : String) : Bool :=
  tableExists db t && !tableExists db (t ++ "_bu")

/-- Python dict assignment `m[k] = v`: overwrite in place if the key is
present (keeping its position), else append. -/
def dictUpsert : List (String × String) → String → String → List (String × String)
  | [], k, v => [(k, v)]
  | (k', v') :: rest, k, v =>
    if k' == k then (k', v) :: rest else (k', v') :: dictUpsert rest k v

/-- The dict comprehension of `fetch_column_names`:
`{col.lower(): col for col in columns}` (a later duplicate lowercase key
overwrites an earlier one). -/
def buildColMap (cols : List String) : List (String × String) :=
  cols.foldl (fun m c => dictUpsert m (strLower c) c) []

/-- Python `dict.get(k, d)`. -/
def dictGetD (m : List (String × String)) (k d : String) : String :=
  match m.find? (fun p => p.1 == k) with
  | some p => p.2
  | none => d

/-- The rows returned by the `information_schema.columns` query of
`fetch_column_names` for a table: its column names when the table
exists, and the empty list when it does not (a catalog `SELECT` for an
absent table succeeds with zero rows — it does not fail). -/
def catalogCols (db : DBState) (table : String) : List String :=
  match lookupTable db table with
  | some tab => tab.cols
  | none => []

/-- `fetch_column_names(engine, schema_name, table_name)` from
`src/merge_process.py`: build the lowercase-to-canonical column mapping
from the catalog query's rows and return it.  The function has no
failure path of its own: an absent or column-less table yields the empty
mapping as an ordinary return value. -/
def fetch_column_names (db : DBState) (table : String) : List (String × String) :=
  buildColMap (catalogCols db table)

/-- `fetch_quarter_details(engine)`: read the quarter-detail registry
indexed by `Update_type`. -/
def fetch_quarter_details (db : DBState) : List (String × QuarterRow) :=
  db.quarter

/-- `df.loc[category, ...]` on the fetched quarter details: the
registry row for an update-type key, `none` when the key is absent
(pandas raises `KeyError`). -/
def quarterLoc (q : List (String × QuarterRow)) (k : String) : Option QuarterRow :=
  (q.find? (fun p => p.1 == k)).map (fun p => p.2)

/-- The archive step of `run_merge_process` (its Step 2): inside ONE
`with engine.begin()` transaction, rename the target table to
`<target>_bu` and then `CREATE TABLE <target> AS TABLE <target>_bu`.
Because both statements share the transaction and PostgreSQL DDL is
transactional, a failure of either statement rolls the whole block back:
the resulting state is the entry state.  `copyFails` injects a
store-level failure of the copy statement. -/
def archiveTx (db : DBState) (tgt : String) (copyFails : Bool) : Except String DBState :=
  match lookupTable db tgt with
  | none => .error ("relation " ++ tgt ++ " does not exist")
  | some tab =>
    if tableExists db (tgt ++ "_bu") then
      .error ("relation " ++ tgt ++ "_bu already exists")
    else if copyFails then
      .error "backup copy failed"
    else
      .ok ⟨(db.tables.filter (fun p => p.1 != tgt)) ++ [(tgt ++ "_bu", tab), (tgt, tab)],
           db.quarter⟩

/-- `ensure_target_table_exists(engine, schema_name, target_table,
source_table)`: create an empty target with the source's structure when
the target is absent; a no-op otherwise. -/
def ensure_target_table_exists (db : DBState) (src tgt : String) : Except String DBState :=
  if tableExists db tgt then
    .ok db
  else
    match lookupTable db src with
    | none => .error ("relation " ++ src ++ " does not exist")
    | some stab => .ok ⟨db.tables ++ [(tgt, ⟨stab.cols, []⟩)], db.quarter⟩

/-- Replace the rows of a named table, keeping its column list. -/
def setTableRows (db : DBState) (t : String) (rows : List Row) : DBState :=
  ⟨db.tables.map (fun p => if p.1 == t then (p.1, ⟨p.2.cols, rows⟩) else p), db.quarter⟩

/-- The source rows selected by Step 5's insert query (`LEFT JOIN` the
target on all business keys, `WHERE t.<k0> IS NULL`): exactly the source
rows with no all-keys SQL match in the target. -/
def insertNewRows (srcRows tgtRows : List Row) (keys : List String) : List Row :=
  srcRows.filter
    (fun s => !(tgtRows.any (fun t => keys.all (fun k => sqlEq (getCell s k) (getCell t k)))))

/-- The row a stamping insert writes into the target: the source values
under the mapped target column names, followed by the status, effective
window and version id of the given registry row. -/
def stampRow (mapped srcCols : List String) (q : QuarterRow) (s : Row) : Row :=
  (List.zip mapped (srcCols.map (fun c => getCell s c))) ++
  [("status", PVal.str q.status), ("effective_start_date", PVal.str q.esd),
   ("effective_end_date", PVal.str q.eed), ("version_id", PVal.str q.vid)]

/-- The WHERE condition of Step 6's term-date `UPDATE` for a target row
`t`: `t.status != 0` and there is a target row `t1` agreeing with `t` on
the FIRST business key only (`t.k0 = t1.k0`) such that `t1` has no
all-keys match in the source (`s.k0 IS NULL` after the left join). -/
def termCond (tgtRows srcRows : List Row) (k0 : String) (keys : List String) (t : Row) : Bool :=
  sqlActive (getCell t "status") &&
  tgtRows.any (fun t1 =>
    sqlEq (getCell t k0) (getCell t1 k0) &&
    !(srcRows.any (fun s => keys.all (fun k => sqlEq (getCell t1 k) (getCell s k)))))

/-- The SET clause of Step 6's `UPDATE`: overwrite exactly the status
and effective-end-date columns with the Delete registry row's values. -/
def termApply (d : QuarterRow) (t : Row) : Row :=
  setCell (setCell t "status" (PVal.str d.status)) "effective_end_date" (PVal.str d.eed)

/-- Step 6 of `run_merge_process` as a whole: update in place every
target row satisfying `termCond`; no row is added or removed. -/
def termUpdate (tgtRows srcRows : List Row) (k0 : String) (keys : List String)
    (d : QuarterRow) : List Row :=
  tgtRows.map (fun t => if termCond tgtRows srcRows k0 keys t then termApply d t else t)

/-- The source rows selected by Step 7's change-based insert (one per
qualifying join pair): inner-join source and target on all business
keys, require `t.status != 0`, and require `s.col <> t.col` (three-valued
SQL inequality) for SOME column of `mapped_columns` — the full mapped
source column list, with no exclusion applied. -/
def changeInsertRows (srcRows tgtRows : List Row) (keys mapped : List String) : List Row :=
  srcRows.flatMap (fun s =>
    (tgtRows.filter (fun t =>
      keys.all (fun k => sqlEq (getCell s k) (getCell t k)) &&
      sqlActive (getCell t "status") &&
      mapped.any (fun c => sqlNe (getCell s c) (getCell t c)))).map (fun _ => s))

/-- The body of `run_merge_process(engine, schema_name, source_table,
target_table, business_keys, exclude_fields)` from
`src/merge_process.py` — everything inside its `try:` — as a state
transformer.  An error carries the database state at the moment of the
exception (each numbered step runs in its own `engine.begin()`
transaction, so earlier steps' effects persist).  Faithful details:
`exclude_fields` is received but never used; the Step 5 query
interpolates `quarter_details.loc['New', ...]` before it evaluates
`business_keys[0]`, so an empty key list raises `IndexError('list index
out of range')` only after archiving has already committed; Step 7
compares all `mapped_columns`.  `copyFails` injects a store failure of
the archive copy statement; store failures of other statements are not
modelled. -/
def runMergeE (db0 : DBState) (src tgt : String) (keys exclude_fields : List String)
    (copyFails : Bool) : Except (DBState × String) DBState :=
  let sourceMap := fetch_column_names db0 src
  let targetMap := fetch_column_names db0 tgt
  let mapped := sourceMap.map (fun p => dictGetD targetMap p.1 p.1)
  let srcCols := sourceMap.map (fun p => p.1)
  match archiveTx db0 tgt copyFails with
  | .error m => .error (db0, m)
  | .ok db1 =>
    match ensure_target_table_exists db1 src tgt with
    | .error m => .error (db1, m)
    | .ok db2 =>
      let q := fetch_quarter_details db2
      match quarterLoc q "New" with
      | none => .error (db2, "KeyError: New")
      | some qn =>
        match keys with
        | [] => .error (db2, "list index out of range")
        | k0 :: _ =>
          match lookupTable db2 src, lookupTable db2 tgt with
          | some stab, some ttab =>
            let rows3 := ttab.rows ++
              (insertNewRows stab.rows ttab.rows keys).map (stampRow mapped srcCols qn)
            let db3 := setTableRows db2 tgt rows3
            match quarterLoc q "Delete" with
            | none => .error (db3, "KeyError: Delete")
            | some qd =>
              let rows4 := termUpdate rows3 stab.rows k0 keys qd
              let db4 := setTableRows db3 tgt rows4
              match quarterLoc q "Change-Based New" with
              | none => .error (db4, "KeyError: Change-Based New")
              | some qc =>
                let rows5 := rows4 ++
                  (changeInsertRows stab.rows rows4 keys mapped).map (stampRow mapped srcCols qc)
                .ok (setTableRows db4 tgt rows5)
          | _, _ => .error (db2, "relation does not exist")

/-- `run_merge_process` including its `try/except` wrapper: on success
the constant success message, on any exception the string
`"Merge failed: "` followed by the exception text (`return f"Merge
failed: ..."`), paired with the database state after the run. -/
def runMerge (db0 : DBState) (src tgt : String) (keys exclude_fields : List String)
    (copyFails : Bool) : DBState × String :=
  match runMergeE db0 src tgt keys exclude_fields copyFails with
  | .ok db => (db, "Merge process completed successfully!")
  | .error p => (p.1, "Merge failed: " ++ p.2)

/-- The New class of a classifier run, as a row set (empty when the classifier raised). -/
def newKeySet (S T : DF) (keys : List String) : List Row :=
  (find_new_records S T keys).getD []

/-- The Terminated class of a classifier run, as a row set (empty when the classifier raised). -/
def termKeySet (S T : DF) (keys : List String) : List Row :=
  (find_deleted_records S T keys).getD []

/-- The Changed class of a classifier run, as matched row pairs (empty when the classifier raised). -/
def changedPairSet (S T : DF) (keys excl : List String) : List (Row × Row) :=
  (find_changed_pairs S T keys excl).getD []

/-- A business-key tuple is classified New when some row of the New output carries it. -/
def isNewKey (S T : DF) (keys : List String) (k : List PVal) : Prop :=
  ∃ r ∈ newKeySet S T keys, keyOfRow keys r = k

/-- A business-key tuple is classified Terminated when some row of the Terminated output carries it. -/
def isTermKey (S T : DF) (keys : List String) (k : List PVal) : Prop :=
  ∃ r ∈ termKeySet S T keys, keyOfRow keys r = k

/-- A business-key tuple is classified Changed when some changed pair's source side carries it (under the lowercased key names the changed classifier works with). -/
def isChangedKey (S T : DF) (keys excl : List String) (k : List PVal) : Prop :=
  ∃ p ∈ changedPairSet S T keys excl, keyOfRow (keys.map strLower) p.1 = k

/-- The key space of the partition property: key tuples of all source rows and of the status-active target rows. -/
def keySpace (S T : DF) (keys : List String) : List (List PVal) :=
  S.rows.map (keyOfRow keys) ++ (activeFilter T).map (keyOfRow keys)

/-- Unchanged is the residual class: a key tuple of the space classified neither New nor Terminated nor Changed. -/
def isUnchangedKey (S T : DF) (keys excl : List String) (k : List PVal) : Prop :=
  k ∈ keySpace S T keys ∧ ¬ isNewKey S T keys k ∧ ¬ isTermKey S T keys k ∧
    ¬ isChangedKey S T keys excl k

theorem char_toNat_ofNat_valid (n : Nat) (h : n.isValidChar) : (Char.ofNat n).toNat = n := by
  rw [Char.ofNat, dif_pos h]
  rfl

/-- Lowercasing a character twice is the same as lowercasing it once. -/
theorem char_toLower_idem (c : Char) : c.toLower.toLower = c.toLower := by
  unfold Char.toLower
  by_cases h : c.toNat ≥ 65 ∧ c.toNat ≤ 90
  · rw [if_pos h]
    have hv : (c.toNat + 32).isValidChar := Or.inl (by omega)
    have ht : (Char.ofNat (c.toNat + 32)).toNat = c.toNat + 32 := char_toNat_ofNat_valid _ hv
    rw [if_neg]
    rw [ht]
    omega
  · rw [if_neg h, if_neg h]

/-- The executable lowercaser agrees with the library `String.toLower`. -/
theorem strLower_eq_toLower (s : String) : strLower s = s.toLower :=
  (String.map_eq _ _).symm

/-- Lowercasing a string twice is the same as lowercasing it once. -/
theorem strLower_idem (s : String) : strLower (strLower s) = strLower s := by
  unfold strLower
  simp only [List.map_map, Function.comp]
  congr 1
  exact List.map_congr_left (fun c _ => char_toLower_idem c)

theorem getCell_cons (a : String × PVal) (rs : Row) (c : String) :
    getCell (a :: rs) c = if a.1 == c then a.2 else getCell rs c := by
  unfold getCell
  rw [List.find?_cons]
  cases h : (a.1 == c) <;> simp [h]

/-- Lowercasing the labels of a row whose lowercased labels are distinct relabels each cell without merging columns. -/
theorem getCell_lowerRow {r : Row} {c : String}
    (hnd : (r.map (fun p => strLower p.1)).Nodup)
    (hc : c ∈ r.map (fun p => p.1)) :
    getCell (lowerRow r) (strLower c) = getCell r c := by
  induction r with
  | nil => simp at hc
  | cons a rs ih =>
    simp only [List.map_cons, List.nodup_cons] at hnd
    simp only [List.map_cons, List.mem_cons] at hc
    rw [show lowerRow (a :: rs) = (strLower a.1, a.2) :: lowerRow rs from rfl,
      getCell_cons, getCell_cons]
    by_cases hca : a.1 = c
    · simp [hca]
    · have hct : c ∈ rs.map (fun p => p.1) := by
        rcases hc with hc | hc
        · exact absurd hc.symm hca
        · exact hc
      have hclow : strLower c ∈ rs.map (fun p => strLower p.1) := by
        obtain ⟨p, hp, hpc⟩ := List.mem_map.mp hct
        exact List.mem_map.mpr ⟨p, hp, by rw [hpc]⟩
      have h1 : (a.1 == c) = false := beq_eq_false_iff_ne.mpr hca
      have h2 : (strLower a.1 == strLower c) = false :=
        beq_eq_false_iff_ne.mpr (fun heq => hnd.1 (heq ▸ hclow))
      rw [h1, h2]
      simp only [Bool.false_eq_true, if_false]
      exact ih hnd.2 hct

/-- Under the same distinctness condition, the key tuple is unchanged by lowercasing. -/
theorem keyOfRow_lowerRow {r : Row} {keys : List String}
    (hnd : (r.map (fun p => strLower p.1)).Nodup)
    (hks : ∀ k ∈ keys, k ∈ r.map (fun p => p.1)) :
    keyOfRow (keys.map strLower) (lowerRow r) = keyOfRow keys r := by
  unfold keyOfRow
  rw [List.map_map]
  exact List.map_congr_left (fun k hk => getCell_lowerRow hnd (hks k hk))

/-- Two rows match on the keys exactly when their key tuples are equal. -/
theorem matchesOn_iff_keyOfRow {keys : List String} {a b : Row} :
    matchesOn keys a b = true ↔ keyOfRow keys a = keyOfRow keys b := by
  unfold matchesOn keyOfRow
  rw [List.all_eq_true, List.map_eq_map_iff]
  constructor
  · intro h k hk
    exact eq_of_beq (h k hk)
  · intro h k hk
    simp [h k hk]

theorem setCell_names (r : Row) (c : String) (v : PVal) :
    (setCell r c v).map (fun p => p.1) = r.map (fun p => p.1) := by
  unfold setCell
  rw [List.map_map]
  apply List.map_congr_left
  intro p _
  by_cases h : p.1 = c <;> simp [h]

theorem getCell_setCell_same {r : Row} {c : String} {v : PVal}
    (hc : c ∈ r.map (fun p => p.1)) :
    getCell (setCell r c v) c = v := by
  induction r with
  | nil => simp at hc
  | cons a rs ih =>
    simp only [List.map_cons, List.mem_cons] at hc
    by_cases hca : a.1 = c
    · rw [show setCell (a :: rs) c v = (a.1, v) :: setCell rs c v from by
        unfold setCell
        simp [hca], getCell_cons]
      simp [hca]
    · have hct : c ∈ rs.map (fun p => p.1) := by
        rcases hc with hc | hc
        · exact absurd hc.symm hca
        · exact hc
      rw [show setCell (a :: rs) c v = a :: setCell rs c v from by
        unfold setCell
        simp [hca], getCell_cons]
      rw [beq_eq_false_iff_ne.mpr hca]
      simp only [Bool.false_eq_true, if_false]
      exact ih hct

theorem getCell_setCell_other {r : Row} {c c2 : String} {v : PVal} (h : c2 ≠ c) :
    getCell (setCell r c v) c2 = getCell r c2 := by
  induction r with
  | nil => rfl
  | cons a rs ih =>
    by_cases hca : a.1 = c
    · rw [show setCell (a :: rs) c v = (a.1, v) :: setCell rs c v from by
        unfold setCell
        simp [hca], getCell_cons, getCell_cons]
      have : (a.1 == c2) = false := beq_eq_false_iff_ne.mpr (by rw [hca]; exact fun he => h he.symm)
      rw [this]
      simp only [Bool.false_eq_true, if_false]
      exact ih
    · rw [show setCell (a :: rs) c v = a :: setCell rs c v from by
        unfold setCell
        simp [hca], getCell_cons, getCell_cons]
      by_cases hac : a.1 = c2
      · simp [hac]
      · rw [beq_eq_false_iff_ne.mpr hac]
        simp only [Bool.false_eq_true, if_false]
        exact ih

/-- Membership in a successful `find_new_records` output: the source rows with no key match anywhere in the target. -/
theorem mem_find_new {S T : DF} {keys : List String} {l : List Row}
    (h : find_new_records S T keys = some l) {r : Row} :
    r ∈ l ↔ r ∈ S.rows ∧ ∀ t ∈ T.rows, matchesOn keys r t = false := by
  unfold find_new_records at h
  split at h
  · exact absurd h (by simp)
  · injection h with h
    subst h
    simp [List.mem_filter, List.any_eq_false]

/-- Membership in a successful `find_deleted_records` output: the status-active target rows with no key match in the source. -/
theorem mem_find_deleted {S T : DF} {keys : List String} {l : List Row}
    (h : find_deleted_records S T keys = some l) {r : Row} :
    r ∈ l ↔ r ∈ T.rows ∧ isActiveRow T.cols r = true ∧
      ∀ s ∈ S.rows, matchesOn keys r s = false := by
  unfold find_deleted_records at h
  split at h
  · exact absurd h (by simp)
  · injection h with h
    subst h
    simp only [List.mem_filter, Bool.not_eq_true', List.any_eq_false, activeFilter]
    constructor
    · rintro ⟨⟨h1, h2⟩, h3⟩
      exact ⟨h1, h2, fun s hs => Bool.not_eq_true _ ▸ (by simpa using h3 s hs)⟩
    · rintro ⟨h1, h2, h3⟩
      exact ⟨⟨h1, h2⟩, fun s hs => by simpa using h3 s hs⟩

/-- Membership in a successful `find_changed_pairs` output: active matched pairs with some comparison column differing under the pandas inequality. -/
theorem mem_find_changed_pairs {S T : DF} {keys excl : List String} {l : List (Row × Row)}
    (h : find_changed_pairs S T keys excl = some l) {p : Row × Row} :
    p ∈ l ↔ p.1 ∈ (lowerDF S).rows ∧ p.2 ∈ activeFilter (lowerDF T) ∧
      matchesOn (keys.map strLower) p.1 p.2 = true ∧
      (compareFields S T keys excl).any
        (fun c => pdNe (getCell p.1 c) (getCell p.2 c)) = true := by
  unfold find_changed_pairs at h
  dsimp only at h
  split at h
  · exact absurd h (by simp)
  · split at h
    · exact absurd h (by simp)
    · injection h with h
      subst h
      obtain ⟨a, b⟩ := p
      simp only [List.mem_filter, List.mem_flatMap, List.mem_map]
      constructor
      · rintro ⟨⟨s, hs, t, ⟨ht1, ht2⟩, heq⟩, hany⟩
        cases heq
        exact ⟨hs, ht1, ht2, hany⟩
      · rintro ⟨ha, hb, hm, hany⟩
        exact ⟨⟨a, ha, b, ⟨hb, hm⟩, rfl⟩, hany⟩

theorem mem_of_getD {α : Type} {o : Option (List α)} {x : α} (h : x ∈ o.getD []) :
    ∃ l, o = some l ∧ x ∈ l := by
  cases o with
  | none => simp at h
  | some l => exact ⟨l, rfl, h⟩

theorem row_lower_nodup {r : Row} {cols : List String}
    (hwf : r.map (fun p => p.1) = cols) (hnd : (cols.map strLower).Nodup) :
    (r.map (fun p => strLower p.1)).Nodup := by
  have : r.map (fun p => strLower p.1) = (r.map (fun p => p.1)).map strLower := by
    rw [List.map_map]
    rfl
  rw [this, hwf]
  exact hnd

/-- A Changed key tuple is carried by some source row. -/
theorem changedKey_source_row {S T : DF} {keys excl : List String} {k : List PVal}
    (hwfS : ∀ r ∈ S.rows, r.map (fun p => p.1) = S.cols)
    (hndS : (S.cols.map strLower).Nodup)
    (hkS : ∀ c ∈ keys, c ∈ S.cols)
    (hc : isChangedKey S T keys excl k) :
    ∃ s0 ∈ S.rows, keyOfRow keys s0 = k := by
  obtain ⟨p, hp, hpk⟩ := hc
  obtain ⟨l, hl, hpl⟩ := mem_of_getD hp
  have h := (mem_find_changed_pairs hl).mp hpl
  obtain ⟨s0, hs0, hs0e⟩ := List.mem_map.mp h.1
  refine ⟨s0, hs0, ?_⟩
  rw [← keyOfRow_lowerRow (row_lower_nodup (hwfS s0 hs0) hndS)
    (fun c hcc => (hwfS s0 hs0).symm ▸ hkS c hcc)]
  rw [hs0e, hpk]

/-- A Changed key tuple is carried by some target row. -/
theorem changedKey_target_row {S T : DF} {keys excl : List String} {k : List PVal}
    (hwfT : ∀ r ∈ T.rows, r.map (fun p => p.1) = T.cols)
    (hndT : (T.cols.map strLower).Nodup)
    (hkT : ∀ c ∈ keys, c ∈ T.cols)
    (hc : isChangedKey S T keys excl k) :
    ∃ t0 ∈ T.rows, keyOfRow keys t0 = k := by
  obtain ⟨p, hp, hpk⟩ := hc
  obtain ⟨l, hl, hpl⟩ := mem_of_getD hp
  have h := (mem_find_changed_pairs hl).mp hpl
  have hp2 : p.2 ∈ (lowerDF T).rows := (List.mem_filter.mp h.2.1).1
  obtain ⟨t0, ht0, ht0e⟩ := List.mem_map.mp hp2
  refine ⟨t0, ht0, ?_⟩
  have hkey2 : keyOfRow (keys.map strLower) p.2 = k := by
    rw [← matchesOn_iff_keyOfRow.mp h.2.2.1, hpk]
  rw [← keyOfRow_lowerRow (row_lower_nodup (hwfT t0 ht0) hndT)
    (fun c hcc => (hwfT t0 ht0).symm ▸ hkT c hcc)]
  rw [ht0e, hkey2]

/-- No key tuple is both New and Terminated. -/
theorem isNewKey_isTermKey_false {S T : DF} {keys : List String} {k : List PVal}
    (hn : isNewKey S T keys k) (ht : isTermKey S T keys k) : False := by
  obtain ⟨r, hr, hrk⟩ := hn
  obtain ⟨l, hl, hrl⟩ := mem_of_getD hr
  have h1 := (mem_find_new hl).mp hrl
  obtain ⟨r2, hr2, hr2k⟩ := ht
  obtain ⟨l2, hl2, hrl2⟩ := mem_of_getD hr2
  have h2 := (mem_find_deleted hl2).mp hrl2
  have hm : matchesOn keys r r2 = true := matchesOn_iff_keyOfRow.mpr (by rw [hrk, hr2k])
  have hf := h1.2 r2 h2.1
  rw [hm] at hf
  exact absurd hf (by simp)

/-- No key tuple is both New and Changed. -/
theorem isNewKey_isChangedKey_false {S T : DF} {keys excl : List String} {k : List PVal}
    (hwfT : ∀ r ∈ T.rows, r.map (fun p => p.1) = T.cols)
    (hndT : (T.cols.map strLower).Nodup)
    (hkT : ∀ c ∈ keys, c ∈ T.cols)
    (hn : isNewKey S T keys k) (hc : isChangedKey S T keys excl k) : False := by
  obtain ⟨t0, ht0, ht0k⟩ := changedKey_target_row hwfT hndT hkT hc
  obtain ⟨r, hr, hrk⟩ := hn
  obtain ⟨l, hl, hrl⟩ := mem_of_getD hr
  have h1 := (mem_find_new hl).mp hrl
  have hm : matchesOn keys r t0 = true := matchesOn_iff_keyOfRow.mpr (by rw [hrk, ht0k])
  have hf := h1.2 t0 ht0
  rw [hm] at hf
  exact absurd hf (by simp)

/-- No key tuple is both Terminated and Changed. -/
theorem isTermKey_isChangedKey_false {S T : DF} {keys excl : List String} {k : List PVal}
    (hwfS : ∀ r ∈ S.rows, r.map (fun p => p.1) = S.cols)
    (hndS : (S.cols.map strLower).Nodup)
    (hkS : ∀ c ∈ keys, c ∈ S.cols)
    (ht : isTermKey S T keys k) (hc : isChangedKey S T keys excl k) : False := by
  obtain ⟨s0, hs0, hs0k⟩ := changedKey_source_row hwfS hndS hkS hc
  obtain ⟨r, hr, hrk⟩ := ht
  obtain ⟨l, hl, hrl⟩ := mem_of_getD hr
  have h1 := (mem_find_deleted hl).mp hrl
  have hm : matchesOn keys r s0 = true := matchesOn_iff_keyOfRow.mpr (by rw [hrk, hs0k])
  have hf := h1.2.2 s0 hs0
  rw [hm] at hf
  exact absurd hf (by simp)

theorem string_append_bu_ne (t : String) : (t ++ "_bu") ≠ t := by
  intro he
  have hl := congrArg String.length he
  rw [String.length_append] at hl
  have h3 : String.length "_bu" = 3 := rfl
  omega

theorem find?_filter_ne_none (l : List (String × PgTable)) (t : String) :
    (l.filter (fun p => p.1 != t)).find? (fun p => p.1 == t) = none := by
  apply List.find?_eq_none.mpr
  intro p hp
  have h := (List.mem_filter.mp hp).2
  simp only [bne] at h
  simp only [Bool.not_eq_true'] at h
  simp [h]

theorem find?_filter_of_none {l : List (String × PgTable)} {t : String}
    (h : l.find? (fun p => p.1 == t) = none) (t2 : String) :
    (l.filter (fun p => p.1 != t2)).find? (fun p => p.1 == t) = none := by
  apply List.find?_eq_none.mpr
  intro p hp
  exact List.find?_eq_none.mp h p (List.mem_filter.mp hp).1

/-- When the rename preconditions hold and the copy statement fails, the archive transaction fails as a whole. -/
theorem archiveTx_copy_fails {db : DBState} {tgt : String} {tab : PgTable}
    (htab : lookupTable db tgt = some tab)
    (hbu : tableExists db (tgt ++ "_bu") = false) :
    archiveTx db tgt true = .error "backup copy failed" := by
  unfold archiveTx
  rw [htab, hbu]
  simp

/-- When the rename preconditions hold and nothing fails, archiving renames the old target to the backup name and recreates the target as a full copy. -/
theorem archiveTx_ok {db : DBState} {tgt : String} {tab : PgTable}
    (htab : lookupTable db tgt = some tab)
    (hbu : tableExists db (tgt ++ "_bu") = false) :
    archiveTx db tgt false =
      .ok ⟨(db.tables.filter (fun p => p.1 != tgt)) ++ [(tgt ++ "_bu", tab), (tgt, tab)],
           db.quarter⟩ := by
  unfold archiveTx
  rw [htab, hbu]
  simp

/-- After a successful archive the target name resolves to the copied table. -/
theorem lookupTable_archived_tgt {db : DBState} {tgt : String} {tab : PgTable} :
    lookupTable ⟨(db.tables.filter (fun p => p.1 != tgt)) ++ [(tgt ++ "_bu", tab), (tgt, tab)],
      db.quarter⟩ tgt = some tab := by
  unfold lookupTable
  rw [List.find?_append, find?_filter_ne_none]
  rw [List.find?_cons]
  have h1 : ((tgt ++ "_bu", tab).1 == tgt) = false :=
    beq_eq_false_iff_ne.mpr (string_append_bu_ne tgt)
  rw [h1]
  simp

/-- After a successful archive the backup name resolves to the pre-merge table. -/
theorem lookupTable_archived_bu {db : DBState} {tgt : String} {tab : PgTable}
    (hbu : tableExists db (tgt ++ "_bu") = false) :
    lookupTable ⟨(db.tables.filter (fun p => p.1 != tgt)) ++ [(tgt ++ "_bu", tab), (tgt, tab)],
      db.quarter⟩ (tgt ++ "_bu") = some tab := by
  have hnone : db.tables.find? (fun p => p.1 == tgt ++ "_bu") = none := by
    unfold tableExists lookupTable at hbu
    cases h : db.tables.find? (fun p => p.1 == tgt ++ "_bu") with
    | none => rfl
    | some p => rw [h] at hbu; simp at hbu
  unfold lookupTable
  rw [List.find?_append, find?_filter_of_none hnone]
  rw [List.find?_cons]
  simp

theorem renameOk_parts {db : DBState} {tgt : String} (h : renameOk db tgt = true) :
    tableExists db tgt = true ∧ tableExists db (tgt ++ "_bu") = false := by
  unfold renameOk at h
  rcases Bool.and_eq_true _ _ |>.mp h with ⟨h1, h2⟩
  exact ⟨h1, by simpa using h2⟩

/-- C1 (amended): `find_changed_records` classifies a key-matched source/target pair (target restricted to status-active rows) as Changed exactly when some column of `compareFields` — the lowercased source columns present in both frames minus the business keys and the exclusions — differs between the two sides under the pandas elementwise `!=`; the classification is determined by the `compareFields` values alone. The original claim also asserted this of the Merge Executor's ChangeInserted phase; that part is refuted by `C1_executor_ignores_exclusions_counterexample`, because the generated SQL compares every mapped source column and ignores `exclude_fields`. -/
theorem C1_classifier_changed_iff {S T : DF} {keys excl : List String} {l : List (Row × Row)}
    (h : find_changed_pairs S T keys excl = some l) (s t : Row) :
    (s, t) ∈ l ↔
      (s ∈ (lowerDF S).rows ∧ t ∈ activeFilter (lowerDF T) ∧
       matchesOn (keys.map strLower) s t = true ∧
       ∃ c ∈ compareFields S T keys excl, pdNe (getCell s c) (getCell t c) = true) := by
  rw [mem_find_changed_pairs h]
  simp [List.any_eq_true]

/-- C1 witness: the classifier iff instantiated at a concrete one-pair example (key `k` matches, compare column `d` differs). -/
theorem C1_classifier_changed_iff_witness :
    ((([("k", PVal.str "1"), ("d", PVal.str "x")] : Row),
      ([("k", PVal.str "1"), ("d", PVal.str "y"), ("status", PVal.str "1")] : Row)) ∈
        [(([("k", PVal.str "1"), ("d", PVal.str "x")] : Row),
          ([("k", PVal.str "1"), ("d", PVal.str "y"), ("status", PVal.str "1")] : Row))]) ↔
      (([("k", PVal.str "1"), ("d", PVal.str "x")] : Row) ∈
          (lowerDF ⟨["k", "d"], [[("k", PVal.str "1"), ("d", PVal.str "x")]]⟩).rows ∧
        ([("k", PVal.str "1"), ("d", PVal.str "y"), ("status", PVal.str "1")] : Row) ∈
          activeFilter (lowerDF ⟨["k", "d", "status"],
            [[("k", PVal.str "1"), ("d", PVal.str "y"), ("status", PVal.str "1")]]⟩) ∧
        matchesOn (["k"].map strLower) [("k", PVal.str "1"), ("d", PVal.str "x")]
          [("k", PVal.str "1"), ("d", PVal.str "y"), ("status", PVal.str "1")] = true ∧
        ∃ c ∈ compareFields ⟨["k", "d"], [[("k", PVal.str "1"), ("d", PVal.str "x")]]⟩
            ⟨["k", "d", "status"],
              [[("k", PVal.str "1"), ("d", PVal.str "y"), ("status", PVal.str "1")]]⟩ ["k"] [],
          pdNe (getCell [("k", PVal.str "1"), ("d", PVal.str "x")] c)
            (getCell [("k", PVal.str "1"), ("d", PVal.str "y"), ("status", PVal.str "1")] c) =
            true) :=
  @C1_classifier_changed_iff ⟨["k", "d"], [[("k", PVal.str "1"), ("d", PVal.str "x")]]⟩
    ⟨["k", "d", "status"], [[("k", PVal.str "1"), ("d", PVal.str "y"), ("status", PVal.str "1")]]⟩
    ["k"] []
    [(([("k", PVal.str "1"), ("d", PVal.str "x")] : Row),
      ([("k", PVal.str "1"), ("d", PVal.str "y"), ("status", PVal.str "1")] : Row))]
    (by decide) [("k", PVal.str "1"), ("d", PVal.str "x")]
    [("k", PVal.str "1"), ("d", PVal.str "y"), ("status", PVal.str "1")]

/-- C1 counterexample: with business key `k`, exclusion list `[c]`, and the only comparison column `d` equal on both sides, the classifier finds no changed pair (`some []`), yet the executor's ChangeInserted phase of `run_merge_process` inserts a change-based new row (the target grows from 1 row to 2) because the excluded column `c` differs — Step 7's SQL compares all `mapped_columns` and never consults `exclude_fields`. -/
theorem C1_executor_ignores_exclusions_counterexample :
    find_changed_pairs
      ⟨["k", "c", "d"], [[("k", PVal.str "1"), ("c", PVal.str "x"), ("d", PVal.str "5")]]⟩
      ⟨["k", "c", "d", "status", "effective_start_date", "effective_end_date", "version_id"],
        [[("k", PVal.str "1"), ("c", PVal.str "y"), ("d", PVal.str "5"), ("status", PVal.str "1"),
          ("effective_start_date", PVal.str "2020-01-01"),
          ("effective_end_date", PVal.str "2099-12-31"),
          ("version_id", PVal.str "v1")]]⟩
      ["k"] ["c"] = some [] ∧
    (runMerge ⟨[("src", ⟨["k", "c", "d"],
          [[("k", PVal.str "1"), ("c", PVal.str "x"), ("d", PVal.str "5")]]⟩),
        ("tgt", ⟨["k", "c", "d", "status", "effective_start_date", "effective_end_date",
            "version_id"],
          [[("k", PVal.str "1"), ("c", PVal.str "y"), ("d", PVal.str "5"),
            ("status", PVal.str "1"),
            ("effective_start_date", PVal.str "2020-01-01"),
            ("effective_end_date", PVal.str "2099-12-31"),
            ("version_id", PVal.str "v1")]]⟩)],
        [("New", ⟨"1", "2024-01-01", "2099-12-31", "v2"⟩),
         ("Delete", ⟨"0", "2020-01-01", "2024-01-01", "v2"⟩),
         ("Change-Based New", ⟨"1", "2024-01-01", "2099-12-31", "v2"⟩)]⟩
      "src" "tgt" ["k"] ["c"] false).2 = "Merge process completed successfully!" ∧
    ((lookupTable (runMerge ⟨[("src", ⟨["k", "c", "d"],
          [[("k", PVal.str "1"), ("c", PVal.str "x"), ("d", PVal.str "5")]]⟩),
        ("tgt", ⟨["k", "c", "d", "status", "effective_start_date", "effective_end_date",
            "version_id"],
          [[("k", PVal.str "1"), ("c", PVal.str "y"), ("d", PVal.str "5"),
            ("status", PVal.str "1"),
            ("effective_start_date", PVal.str "2020-01-01"),
            ("effective_end_date", PVal.str "2099-12-31"),
            ("version_id", PVal.str "v1")]]⟩)],
        [("New", ⟨"1", "2024-01-01", "2099-12-31", "v2"⟩),
         ("Delete", ⟨"0", "2020-01-01", "2024-01-01", "v2"⟩),
         ("Change-Based New", ⟨"1", "2024-01-01", "2099-12-31", "v2"⟩)]⟩
      "src" "tgt" ["k"] ["c"] false).1 "tgt").map (fun tb => tb.rows.length)) = some 2 := by
  refine ⟨by decide, by decide, by decide⟩

/-- C2 (amended): when the archive rename's own preconditions hold but the backup copy fails, the single `engine.begin()` transaction wrapping both archive statements rolls the rename back (PostgreSQL DDL is transactional): the run returns the entry database state unchanged — the active target still exists and no backup table exists — together with the plain failure string; the core performs no compensating action of its own, the undo being the transaction rollback. -/
theorem C2_archive_copy_failure_rolls_back (db : DBState) (src tgt : String)
    (keys excl : List String) (h : renameOk db tgt = true) :
    runMerge db src tgt keys excl true = (db, "Merge failed: backup copy failed") ∧
    tableExists db tgt = true ∧ tableExists db (tgt ++ "_bu") = false := by
  obtain ⟨h1, h2⟩ := renameOk_parts h
  obtain ⟨tab, htab⟩ := Option.isSome_iff_exists.mp h1
  have ha := archiveTx_copy_fails htab h2
  refine ⟨?_, h1, h2⟩
  unfold runMerge runMergeE
  rw [ha]
  rfl

/-- C2 witness: the amended archiving behaviour at a concrete two-table database. -/
theorem C2_archive_copy_failure_rolls_back_witness :
    runMerge ⟨[("src", ⟨["k"], []⟩), ("tgt", ⟨["k"], []⟩)], []⟩ "src" "tgt" ["k"] [] true =
      (⟨[("src", ⟨["k"], []⟩), ("tgt", ⟨["k"], []⟩)], []⟩, "Merge failed: backup copy failed") ∧
    tableExists ⟨[("src", ⟨["k"], []⟩), ("tgt", ⟨["k"], []⟩)], []⟩ "tgt" = true ∧
    tableExists ⟨[("src", ⟨["k"], []⟩), ("tgt", ⟨["k"], []⟩)], []⟩ ("tgt" ++ "_bu") = false :=
  C2_archive_copy_failure_rolls_back ⟨[("src", ⟨["k"], []⟩), ("tgt", ⟨["k"], []⟩)], []⟩
    "src" "tgt" ["k"] [] (by decide)

/-- C2 counterexample: a concrete database in which the rename preconditions hold (`renameOk`) and the copy fails: after the run the active target name STILL exists and the backup name does NOT, and the run reports only the string `Merge failed: backup copy failed` — contradicting the claimed post-state (active absent, backup present) and the claimed structured Fatal report. -/
theorem C2_rename_then_copy_failure_counterexample :
    renameOk ⟨[("tgt", ⟨["k"], [[("k", PVal.str "1")]]⟩)], []⟩ "tgt" = true ∧
    runMerge ⟨[("tgt", ⟨["k"], [[("k", PVal.str "1")]]⟩)], []⟩ "src" "tgt" ["k"] [] true =
      (⟨[("tgt", ⟨["k"], [[("k", PVal.str "1")]]⟩)], []⟩, "Merge failed: backup copy failed") ∧
    tableExists ⟨[("tgt", ⟨["k"], [[("k", PVal.str "1")]]⟩)], []⟩ "tgt" = true ∧
    tableExists ⟨[("tgt", ⟨["k"], [[("k", PVal.str "1")]]⟩)], []⟩ "tgt_bu" = false := by
  refine ⟨by decide, ?_, by decide, by decide⟩
  decide

/-- C3 (amended): every invocation of `run_merge_process` returns exactly one of two STRING outcomes — the constant success message, which carries no classification counts, or `Merge failed: ` followed by the exception text, which carries no structured phase or cause; no partial or warning outcome exists, but neither outcome is structured data. -/
theorem C3_result_is_one_of_two_strings (db : DBState) (src tgt : String)
    (keys excl : List String) (cf : Bool) :
    (runMerge db src tgt keys excl cf).2 = "Merge process completed successfully!" ∨
    ∃ m, (runMerge db src tgt keys excl cf).2 = "Merge failed: " ++ m := by
  unfold runMerge
  cases h : runMergeE db src tgt keys excl cf with
  | ok d =>
    left
    rfl
  | error p =>
    right
    exact ⟨p.2, rfl⟩

/-- C3 counterexample: two successful runs that insert different numbers of new rows (final target sizes 1 and 2, both starting from an empty target) return identical result values, so the success outcome cannot carry the claimed `newCount`/`terminatedCount`/`changedCount` structure. -/
theorem C3_success_carries_no_counts_counterexample :
    (runMerge ⟨[("src", ⟨["k"], [[("k", PVal.str "1")]]⟩),
                ("tgt", ⟨["k", "status", "effective_start_date", "effective_end_date",
                          "version_id"], []⟩)],
               [("New", ⟨"1", "2024-01-01", "2099-12-31", "v2"⟩),
                ("Delete", ⟨"0", "2020-01-01", "2024-01-01", "v2"⟩),
                ("Change-Based New", ⟨"1", "2024-01-01", "2099-12-31", "v2"⟩)]⟩
        "src" "tgt" ["k"] [] false).2 =
      (runMerge ⟨[("src", ⟨["k"], [[("k", PVal.str "1")], [("k", PVal.str "2")]]⟩),
                  ("tgt", ⟨["k", "status", "effective_start_date", "effective_end_date",
                            "version_id"], []⟩)],
                 [("New", ⟨"1", "2024-01-01", "2099-12-31", "v2"⟩),
                  ("Delete", ⟨"0", "2020-01-01", "2024-01-01", "v2"⟩),
                  ("Change-Based New", ⟨"1", "2024-01-01", "2099-12-31", "v2"⟩)]⟩
        "src" "tgt" ["k"] [] false).2 ∧
    (runMerge ⟨[("src", ⟨["k"], [[("k", PVal.str "1")]]⟩),
                ("tgt", ⟨["k", "status", "effective_start_date", "effective_end_date",
                          "version_id"], []⟩)],
               [("New", ⟨"1", "2024-01-01", "2099-12-31", "v2"⟩),
                ("Delete", ⟨"0", "2020-01-01", "2024-01-01", "v2"⟩),
                ("Change-Based New", ⟨"1", "2024-01-01", "2099-12-31", "v2"⟩)]⟩
        "src" "tgt" ["k"] [] false).2 = "Merge process completed successfully!" ∧
    ((lookupTable (runMerge ⟨[("src", ⟨["k"], [[("k", PVal.str "1")]]⟩),
                ("tgt", ⟨["k", "status", "effective_start_date", "effective_end_date",
                          "version_id"], []⟩)],
               [("New", ⟨"1", "2024-01-01", "2099-12-31", "v2"⟩),
                ("Delete", ⟨"0", "2020-01-01", "2024-01-01", "v2"⟩),
                ("Change-Based New", ⟨"1", "2024-01-01", "2099-12-31", "v2"⟩)]⟩
        "src" "tgt" ["k"] [] false).1 "tgt").map (fun tb => tb.rows.length)) = some 1 ∧
    ((lookupTable (runMerge ⟨[("src", ⟨["k"], [[("k", PVal.str "1")], [("k", PVal.str "2")]]⟩),
                  ("tgt", ⟨["k", "status", "effective_start_date", "effective_end_date",
                            "version_id"], []⟩)],
                 [("New", ⟨"1", "2024-01-01", "2099-12-31", "v2"⟩),
                  ("Delete", ⟨"0", "2020-01-01", "2024-01-01", "v2"⟩),
                  ("Change-Based New", ⟨"1", "2024-01-01", "2099-12-31", "v2"⟩)]⟩
        "src" "tgt" ["k"] [] false).1 "tgt").map (fun tb => tb.rows.length)) = some 2 := by
  refine ⟨by decide, by decide, by decide, by decide⟩

/-- C4 (amended): in the classifier's comparison `pdNe`, a value NULL on exactly one side always counts as a difference, as claimed; but NULL on both sides counts as a difference when the NULLs are pandas `NaN` (how numeric-column SQL NULLs arrive) and does not when they are Python `None` (object columns) — the comparison is not uniformly three-valued NULL-aware. -/
theorem C4_null_comparison_semantics (a b : PVal)
    (h : a.isNull = true ∧ b.isNull = false) :
    pdNe a b = true ∧ pdNe b a = true ∧
    pdNe PVal.nan PVal.nan = true ∧ pdNe PVal.pyNone PVal.pyNone = false := by
  obtain ⟨ha, hb⟩ := h
  cases a <;> cases b <;> simp_all [pdNe, PVal.isNull]

/-- C4 witness: the amended NULL-comparison facts at concrete values. -/
theorem C4_null_comparison_semantics_witness :
    pdNe PVal.nan (PVal.str "x") = true ∧ pdNe (PVal.str "x") PVal.nan = true ∧
    pdNe PVal.nan PVal.nan = true ∧ pdNe PVal.pyNone PVal.pyNone = false :=
  C4_null_comparison_semantics PVal.nan (PVal.str "x") (by decide)

/-- C4 counterexample: a compared column NULL on both sides in the `NaN` representation IS counted as a difference — `find_changed_records` classifies the key-matched pair as Changed — refuting the claim that NULL-on-both-sides is never a difference. -/
theorem C4_null_both_sides_counterexample :
    find_changed_pairs ⟨["k", "d"], [[("k", PVal.str "1"), ("d", PVal.nan)]]⟩
      ⟨["k", "d", "status"], [[("k", PVal.str "1"), ("d", PVal.nan), ("status", PVal.str "1")]]⟩
      ["k"] [] =
    some [([("k", PVal.str "1"), ("d", PVal.nan)],
           [("k", PVal.str "1"), ("d", PVal.nan), ("status", PVal.str "1")])] := by decide

/-- C5: for well-formed frames (rows labelled by the frame's columns, lowercased column names distinct, key columns present on both sides, unique non-null key tuples, non-empty key set), every business-key tuple of the `S ∪ T(active)` space belongs to exactly one of New (`find_new_records`), Terminated (`find_deleted_records`), Changed (`find_changed_records`) and the residual Unchanged class: exactly one disjunct of the four-way alternative holds. -/
theorem C5_classification_partition (S T : DF) (keys excl : List String) (k : List PVal)
    (_hkeys : keys ≠ [])
    (hwfS : ∀ r ∈ S.rows, r.map (fun p => p.1) = S.cols)
    (hwfT : ∀ r ∈ T.rows, r.map (fun p => p.1) = T.cols)
    (hndS : (S.cols.map strLower).Nodup)
    (hndT : (T.cols.map strLower).Nodup)
    (hkS : ∀ c ∈ keys, c ∈ S.cols)
    (hkT : ∀ c ∈ keys, c ∈ T.cols)
    (_hnnS : ∀ r ∈ S.rows, ∀ c ∈ keys, (getCell r c).isNull = false)
    (_hnnT : ∀ r ∈ T.rows, ∀ c ∈ keys, (getCell r c).isNull = false)
    (_huS : ∀ r1 ∈ S.rows, ∀ r2 ∈ S.rows, keyOfRow keys r1 = keyOfRow keys r2 → r1 = r2)
    (_huT : ∀ r1 ∈ T.rows, ∀ r2 ∈ T.rows, keyOfRow keys r1 = keyOfRow keys r2 → r1 = r2)
    (hmem : k ∈ keySpace S T keys) :
    (isNewKey S T keys k ∧ ¬ isTermKey S T keys k ∧ ¬ isChangedKey S T keys excl k ∧
      ¬ isUnchangedKey S T keys excl k) ∨
    (¬ isNewKey S T keys k ∧ isTermKey S T keys k ∧ ¬ isChangedKey S T keys excl k ∧
      ¬ isUnchangedKey S T keys excl k) ∨
    (¬ isNewKey S T keys k ∧ ¬ isTermKey S T keys k ∧ isChangedKey S T keys excl k ∧
      ¬ isUnchangedKey S T keys excl k) ∨
    (¬ isNewKey S T keys k ∧ ¬ isTermKey S T keys k ∧ ¬ isChangedKey S T keys excl k ∧
      isUnchangedKey S T keys excl k) := by
  by_cases hn : isNewKey S T keys k
  · left
    exact ⟨hn, fun ht => isNewKey_isTermKey_false hn ht,
      fun hc => isNewKey_isChangedKey_false hwfT hndT hkT hn hc,
      fun hu => hu.2.1 hn⟩
  · by_cases ht : isTermKey S T keys k
    · right; left
      exact ⟨hn, ht, fun hc => isTermKey_isChangedKey_false hwfS hndS hkS ht hc,
        fun hu => hu.2.2.1 ht⟩
    · by_cases hc : isChangedKey S T keys excl k
      · right; right; left
        exact ⟨hn, ht, hc, fun hu => hu.2.2.2 hc⟩
      · right; right; right
        exact ⟨hn, ht, hc, ⟨hmem, hn, ht, hc⟩⟩

/-- C5 witness: the partition at the spec's Scenario A (source keys 1,2,3; active target keys 1,2) for key tuple `[3]`, which falls in the New class. -/
theorem C5_classification_partition_witness :
    (isNewKey ⟨["id", "name"], [[("id", PVal.str "1"), ("name", PVal.str "A")],
        [("id", PVal.str "2"), ("name", PVal.str "B")],
        [("id", PVal.str "3"), ("name", PVal.str "C")]]⟩
      ⟨["id", "name", "status"], [[("id", PVal.str "1"), ("name", PVal.str "A"),
          ("status", PVal.str "1")],
        [("id", PVal.str "2"), ("name", PVal.str "X"), ("status", PVal.str "1")]]⟩
      ["id"] [PVal.str "3"] ∧
      ¬ isTermKey ⟨["id", "name"], [[("id", PVal.str "1"), ("name", PVal.str "A")],
          [("id", PVal.str "2"), ("name", PVal.str "B")],
          [("id", PVal.str "3"), ("name", PVal.str "C")]]⟩
        ⟨["id", "name", "status"], [[("id", PVal.str "1"), ("name", PVal.str "A"),
            ("status", PVal.str "1")],
          [("id", PVal.str "2"), ("name", PVal.str "X"), ("status", PVal.str "1")]]⟩
        ["id"] [PVal.str "3"] ∧
      ¬ isChangedKey ⟨["id", "name"], [[("id", PVal.str "1"), ("name", PVal.str "A")],
          [("id", PVal.str "2"), ("name", PVal.str "B")],
          [("id", PVal.str "3"), ("name", PVal.str "C")]]⟩
        ⟨["id", "name", "status"], [[("id", PVal.str "1"), ("name", PVal.str "A"),
            ("status", PVal.str "1")],
          [("id", PVal.str "2"), ("name", PVal.str "X"), ("status", PVal.str "1")]]⟩
        ["id"] [] [PVal.str "3"] ∧
      ¬ isUnchangedKey ⟨["id", "name"], [[("id", PVal.str "1"), ("name", PVal.str "A")],
          [("id", PVal.str "2"), ("name", PVal.str "B")],
          [("id", PVal.str "3"), ("name", PVal.str "C")]]⟩
        ⟨["id", "name", "status"], [[("id", PVal.str "1"), ("name", PVal.str "A"),
            ("status", PVal.str "1")],
          [("id", PVal.str "2"), ("name", PVal.str "X"), ("status", PVal.str "1")]]⟩
        ["id"] [] [PVal.str "3"]) ∨
    (¬ isNewKey ⟨["id", "name"], [[("id", PVal.str "1"), ("name", PVal.str "A")],
        [("id", PVal.str "2"), ("name", PVal.str "B")],
        [("id", PVal.str "3"), ("name", PVal.str "C")]]⟩
      ⟨["id", "name", "status"], [[("id", PVal.str "1"), ("name", PVal.str "A"),
          ("status", PVal.str "1")],
        [("id", PVal.str "2"), ("name", PVal.str "X"), ("status", PVal.str "1")]]⟩
      ["id"] [PVal.str "3"] ∧
      isTermKey ⟨["id", "name"], [[("id", PVal.str "1"), ("name", PVal.str "A")],
          [("id", PVal.str "2"), ("name", PVal.str "B")],
          [("id", PVal.str "3"), ("name", PVal.str "C")]]⟩
        ⟨["id", "name", "status"], [[("id", PVal.str "1"), ("name", PVal.str "A"),
            ("status", PVal.str "1")],
          [("id", PVal.str "2"), ("name", PVal.str "X"), ("status", PVal.str "1")]]⟩
        ["id"] [PVal.str "3"] ∧
      ¬ isChangedKey ⟨["id", "name"], [[("id", PVal.str "1"), ("name", PVal.str "A")],
          [("id", PVal.str "2"), ("name", PVal.str "B")],
          [("id", PVal.str "3"), ("name", PVal.str "C")]]⟩
        ⟨["id", "name", "status"], [[("id", PVal.str "1"), ("name", PVal.str "A"),
            ("status", PVal.str "1")],
          [("id", PVal.str "2"), ("name", PVal.str "X"), ("status", PVal.str "1")]]⟩
        ["id"] [] [PVal.str "3"] ∧
      ¬ isUnchangedKey ⟨["id", "name"], [[("id", PVal.str "1"), ("name", PVal.str "A")],
          [("id", PVal.str "2"), ("name", PVal.str "B")],
          [("id", PVal.str "3"), ("name", PVal.str "C")]]⟩
        ⟨["id", "name", "status"], [[("id", PVal.str "1"), ("name", PVal.str "A"),
            ("status", PVal.str "1")],
          [("id", PVal.str "2"), ("name", PVal.str "X"), ("status", PVal.str "1")]]⟩
        ["id"] [] [PVal.str "3"]) ∨
    (¬ isNewKey ⟨["id", "name"], [[("id", PVal.str "1"), ("name", PVal.str "A")],
        [("id", PVal.str "2"), ("name", PVal.str "B")],
        [("id", PVal.str "3"), ("name", PVal.str "C")]]⟩
      ⟨["id", "name", "status"], [[("id", PVal.str "1"), ("name", PVal.str "A"),
          ("status", PVal.str "1")],
        [("id", PVal.str "2"), ("name", PVal.str "X"), ("status", PVal.str "1")]]⟩
      ["id"] [PVal.str "3"] ∧
      ¬ isTermKey ⟨["id", "name"], [[("id", PVal.str "1"), ("name", PVal.str "A")],
          [("id", PVal.str "2"), ("name", PVal.str "B")],
          [("id", PVal.str "3"), ("name", PVal.str "C")]]⟩
        ⟨["id", "name", "status"], [[("id", PVal.str "1"), ("name", PVal.str "A"),
            ("status", PVal.str "1")],
          [("id", PVal.str "2"), ("name", PVal.str "X"), ("status", PVal.str "1")]]⟩
        ["id"] [PVal.str "3"] ∧
      isChangedKey ⟨["id", "name"], [[("id", PVal.str "1"), ("name", PVal.str "A")],
          [("id", PVal.str "2"), ("name", PVal.str "B")],
          [("id", PVal.str "3"), ("name", PVal.str "C")]]⟩
        ⟨["id", "name", "status"], [[("id", PVal.str "1"), ("name", PVal.str "A"),
            ("status", PVal.str "1")],
          [("id", PVal.str "2"), ("name", PVal.str "X"), ("status", PVal.str "1")]]⟩
        ["id"] [] [PVal.str "3"] ∧
      ¬ isUnchangedKey ⟨["id", "name"], [[("id", PVal.str "1"), ("name", PVal.str "A")],
          [("id", PVal.str "2"), ("name", PVal.str "B")],
          [("id", PVal.str "3"), ("name", PVal.str "C")]]⟩
        ⟨["id", "name", "status"], [[("id", PVal.str "1"), ("name", PVal.str "A"),
            ("status", PVal.str "1")],
          [("id", PVal.str "2"), ("name", PVal.str "X"), ("status", PVal.str "1")]]⟩
        ["id"] [] [PVal.str "3"]) ∨
    (¬ isNewKey ⟨["id", "name"], [[("id", PVal.str "1"), ("name", PVal.str "A")],
        [("id", PVal.str "2"), ("name", PVal.str "B")],
        [("id", PVal.str "3"), ("name", PVal.str "C")]]⟩
      ⟨["id", "name", "status"], [[("id", PVal.str "1"), ("name", PVal.str "A"),
          ("status", PVal.str "1")],
        [("id", PVal.str "2"), ("name", PVal.str "X"), ("status", PVal.str "1")]]⟩
      ["id"] [PVal.str "3"] ∧
      ¬ isTermKey ⟨["id", "name"], [[("id", PVal.str "1"), ("name", PVal.str "A")],
          [("id", PVal.str "2"), ("name", PVal.str "B")],
          [("id", PVal.str "3"), ("name", PVal.str "C")]]⟩
        ⟨["id", "name", "status"], [[("id", PVal.str "1"), ("name", PVal.str "A"),
            ("status", PVal.str "1")],
          [("id", PVal.str "2"), ("name", PVal.str "X"), ("status", PVal.str "1")]]⟩
        ["id"] [PVal.str "3"] ∧
      ¬ isChangedKey ⟨["id", "name"], [[("id", PVal.str "1"), ("name", PVal.str "A")],
          [("id", PVal.str "2"), ("name", PVal.str "B")],
          [("id", PVal.str "3"), ("name", PVal.str "C")]]⟩
        ⟨["id", "name", "status"], [[("id", PVal.str "1"), ("name", PVal.str "A"),
            ("status", PVal.str "1")],
          [("id", PVal.str "2"), ("name", PVal.str "X"), ("status", PVal.str "1")]]⟩
        ["id"] [] [PVal.str "3"] ∧
      isUnchangedKey ⟨["id", "name"], [[("id", PVal.str "1"), ("name", PVal.str "A")],
          [("id", PVal.str "2"), ("name", PVal.str "B")],
          [("id", PVal.str "3"), ("name", PVal.str "C")]]⟩
        ⟨["id", "name", "status"], [[("id", PVal.str "1"), ("name", PVal.str "A"),
            ("status", PVal.str "1")],
          [("id", PVal.str "2"), ("name", PVal.str "X"), ("status", PVal.str "1")]]⟩
        ["id"] [] [PVal.str "3"]) :=
  C5_classification_partition
    ⟨["id", "name"], [[("id", PVal.str "1"), ("name", PVal.str "A")],
      [("id", PVal.str "2"), ("name", PVal.str "B")],
      [("id", PVal.str "3"), ("name", PVal.str "C")]]⟩
    ⟨["id", "name", "status"], [[("id", PVal.str "1"), ("name", PVal.str "A"),
        ("status", PVal.str "1")],
      [("id", PVal.str "2"), ("name", PVal.str "X"), ("status", PVal.str "1")]]⟩
    ["id"] [] [PVal.str "3"]
    (by decide) (by decide) (by decide) (by decide) (by decide) (by decide) (by decide)
    (by decide) (by decide) (by decide) (by decide) (by decide)

/-- C6: a successful `find_deleted_records` run returns exactly the target rows that pass the status-activity test and have no business-key match in the source; a status-inactive target row is never returned, even when it has no source counterpart. -/
theorem C6_terminated_exactly_active_unmatched {S T : DF} {keys : List String} {l : List Row}
    (h : find_deleted_records S T keys = some l) (r : Row) :
    r ∈ l ↔ (r ∈ T.rows ∧ isActiveRow T.cols r = true ∧
      ∀ s ∈ S.rows, matchesOn keys r s = false) :=
  mem_find_deleted h

/-- C6 witness: the spec's Scenario B — target key 5 is inactive and absent from the source, and is excluded from the Terminated output (which is empty). -/
theorem C6_terminated_exactly_active_unmatched_witness :
    (([("id", PVal.str "5"), ("status", PVal.str "0")] : Row) ∈ ([] : List Row)) ↔
      (([("id", PVal.str "5"), ("status", PVal.str "0")] : Row) ∈
          [[("id", PVal.str "5"), ("status", PVal.str "0")]] ∧
        isActiveRow ["id", "status"] [("id", PVal.str "5"), ("status", PVal.str "0")] = true ∧
        ∀ s ∈ [[("id", PVal.str "1")]],
          matchesOn ["id"] [("id", PVal.str "5"), ("status", PVal.str "0")] s = false) :=
  @C6_terminated_exactly_active_unmatched ⟨["id"], [[("id", PVal.str "1")]]⟩
    ⟨["id", "status"], [[("id", PVal.str "5"), ("status", PVal.str "0")]]⟩
    ["id"] [] (by decide) [("id", PVal.str "5"), ("status", PVal.str "0")]

/-- C7 (amended): `fetch_column_names` returns the EMPTY mapping as an ordinary success value whenever the table does not exist in the catalog or exposes zero columns; the function has no NotFound failure path (the `information_schema` query simply returns zero rows). -/
theorem C7_empty_mapping_on_absent_or_columnless (db : DBState) (t : String)
    (h : lookupTable db t = none ∨ ∃ tab, lookupTable db t = some tab ∧ tab.cols = []) :
    fetch_column_names db t = [] := by
  unfold fetch_column_names catalogCols
  rcases h with h | ⟨tab, h, hc⟩
  · rw [h]
    rfl
  · rw [h]
    show buildColMap tab.cols = []
    rw [hc]
    rfl

/-- C7 witness: the empty mapping returned on an empty catalog. -/
theorem C7_empty_mapping_on_absent_or_columnless_witness :
    fetch_column_names ⟨[], []⟩ "t" = [] :=
  C7_empty_mapping_on_absent_or_columnless ⟨[], []⟩ "t" (Or.inl rfl)

/-- C7 counterexample: for a concrete catalog without the requested table, `fetch_column_names` returns `[]` as a success — refuting the claim that it fails with NotFound and never returns an empty mapping. -/
theorem C7_missing_table_empty_mapping_counterexample :
    fetch_column_names ⟨[("present", ⟨["a"], []⟩)], []⟩ "missing" = [] := by decide

/-- C8 (amended): an empty business-key set is not rejected up front with InvalidArgument: the merge run first archives the target (the backup table exists in the post-run state) and then fails while interpolating `business_keys[0]` into the Step 5 SQL, reporting the Python IndexError text `Merge failed: list index out of range`; the pandas classifiers likewise raise inside `merge` on an empty key list (modelled as `none`). -/
theorem C8_empty_keys_index_error (db : DBState) (src tgt : String) (excl : List String)
    (h : renameOk db tgt = true)
    (hq : (quarterLoc db.quarter "New").isSome = true) :
    (runMerge db src tgt [] excl false).2 = "Merge failed: list index out of range" ∧
    tableExists (runMerge db src tgt [] excl false).1 (tgt ++ "_bu") = true ∧
    (∀ S T : DF, find_new_records S T [] = none) := by
  obtain ⟨h1, h2⟩ := renameOk_parts h
  obtain ⟨tab, htab⟩ := Option.isSome_iff_exists.mp h1
  obtain ⟨qn, hqn⟩ := Option.isSome_iff_exists.mp hq
  have ha := archiveTx_ok htab h2
  have hlt := @lookupTable_archived_tgt db tgt tab
  have hens : ensure_target_table_exists
      ⟨(db.tables.filter (fun p => p.1 != tgt)) ++ [(tgt ++ "_bu", tab), (tgt, tab)],
        db.quarter⟩ src tgt =
      .ok ⟨(db.tables.filter (fun p => p.1 != tgt)) ++ [(tgt ++ "_bu", tab), (tgt, tab)],
        db.quarter⟩ := by
    unfold ensure_target_table_exists tableExists
    rw [hlt]
    rfl
  have hrun : runMerge db src tgt [] excl false =
      (⟨(db.tables.filter (fun p => p.1 != tgt)) ++ [(tgt ++ "_bu", tab), (tgt, tab)],
        db.quarter⟩, "Merge failed: list index out of range") := by
    simp only [runMerge, runMergeE, ha, hens, fetch_quarter_details, hqn]
    rfl
  refine ⟨by rw [hrun], ?_, fun S T => rfl⟩
  rw [hrun]
  unfold tableExists
  rw [lookupTable_archived_bu h2]
  rfl

/-- C8 witness: the amended empty-key behaviour at a concrete database. -/
theorem C8_empty_keys_index_error_witness :
    (runMerge ⟨[("src", ⟨["k"], []⟩), ("tgt", ⟨["k"], []⟩)],
        [("New", ⟨"1", "2024-01-01", "2099-12-31", "v2"⟩)]⟩ "src" "tgt" [] [] false).2 =
      "Merge failed: list index out of range" ∧
    tableExists (runMerge ⟨[("src", ⟨["k"], []⟩), ("tgt", ⟨["k"], []⟩)],
        [("New", ⟨"1", "2024-01-01", "2099-12-31", "v2"⟩)]⟩ "src" "tgt" [] [] false).1
      ("tgt" ++ "_bu") = true ∧
    (∀ S T : DF, find_new_records S T [] = none) :=
  C8_empty_keys_index_error ⟨[("src", ⟨["k"], []⟩), ("tgt", ⟨["k"], []⟩)],
      [("New", ⟨"1", "2024-01-01", "2099-12-31", "v2"⟩)]⟩ "src" "tgt" []
    (by decide) (by decide)

/-- C8 counterexample: a concrete valid database run with empty business keys fails with the IndexError string `Merge failed: list index out of range` — an unrelated error kind, not InvalidArgument — and only after the archiving step has already created `tgt_bu`. -/
theorem C8_empty_keys_counterexample :
    (runMerge ⟨[("src", ⟨["k"], [[("k", PVal.str "1")]]⟩), ("tgt", ⟨["k"], []⟩)],
        [("New", ⟨"1", "2024-01-01", "2099-12-31", "v2"⟩),
         ("Delete", ⟨"0", "2020-01-01", "2024-01-01", "v2"⟩),
         ("Change-Based New", ⟨"1", "2024-01-01", "2099-12-31", "v2"⟩)]⟩
      "src" "tgt" [] [] false).2 = "Merge failed: list index out of range" ∧
    tableExists (runMerge ⟨[("src", ⟨["k"], [[("k", PVal.str "1")]]⟩), ("tgt", ⟨["k"], []⟩)],
        [("New", ⟨"1", "2024-01-01", "2099-12-31", "v2"⟩),
         ("Delete", ⟨"0", "2020-01-01", "2024-01-01", "v2"⟩),
         ("Change-Based New", ⟨"1", "2024-01-01", "2099-12-31", "v2"⟩)]⟩
      "src" "tgt" [] [] false).1 "tgt_bu" = true := by
  refine ⟨by decide, by decide⟩

/-- C9: in the TerminatedMarked phase (Step 6 of `run_merge_process`), every target row that is status-active, has a non-null first-key value and no all-keys SQL match in the source satisfies the UPDATE condition and is rewritten in place: its status and effective-end-date become the Delete registry row's values, every other column keeps its value exactly, and the phase neither inserts nor removes rows (the row count is unchanged). -/
theorem C9_terminated_update_in_place (tgtRows srcRows : List Row) (k0 : String)
    (ks : List String) (d : QuarterRow) (t : Row)
    (ht : t ∈ tgtRows)
    (hact : sqlActive (getCell t "status") = true)
    (hunmatched : ∀ s ∈ srcRows,
      ((k0 :: ks).all (fun k => sqlEq (getCell t k) (getCell s k))) = false)
    (hk0 : (getCell t k0).isNull = false)
    (hstat : "status" ∈ t.map (fun p => p.1))
    (heed : "effective_end_date" ∈ t.map (fun p => p.1)) :
    (termUpdate tgtRows srcRows k0 (k0 :: ks) d).length = tgtRows.length ∧
    termCond tgtRows srcRows k0 (k0 :: ks) t = true ∧
    termApply d t ∈ termUpdate tgtRows srcRows k0 (k0 :: ks) d ∧
    getCell (termApply d t) "status" = PVal.str d.status ∧
    getCell (termApply d t) "effective_end_date" = PVal.str d.eed ∧
    ∀ c, c ≠ "status" → c ≠ "effective_end_date" →
      getCell (termApply d t) c = getCell t c := by
  have hcond : termCond tgtRows srcRows k0 (k0 :: ks) t = true := by
    unfold termCond
    rw [Bool.and_eq_true]
    refine ⟨hact, ?_⟩
    rw [List.any_eq_true]
    refine ⟨t, ht, ?_⟩
    rw [Bool.and_eq_true]
    constructor
    · unfold sqlEq
      rw [hk0]
      simp
    · rw [Bool.not_eq_true', List.any_eq_false]
      intro s hs
      simp [hunmatched s hs]
  refine ⟨List.length_map _ _, hcond, ?_, ?_, ?_, ?_⟩
  · unfold termUpdate
    apply List.mem_map.mpr
    exact ⟨t, ht, by rw [hcond]; simp⟩
  · unfold termApply
    rw [getCell_setCell_other (by decide)]
    exact getCell_setCell_same hstat
  · unfold termApply
    apply getCell_setCell_same
    rw [setCell_names]
    exact heed
  · intro c hc1 hc2
    unfold termApply
    rw [getCell_setCell_other hc2, getCell_setCell_other hc1]

/-- C9 witness: the in-place terminated update of a concrete four-column row; the data column `v` is untouched. -/
theorem C9_terminated_update_in_place_witness :
    (termUpdate [[("k", PVal.str "9"), ("v", PVal.str "z"), ("status", PVal.str "1"),
        ("effective_end_date", PVal.str "2099-12-31")]] [] "k" ["k"]
        ⟨"0", "2020-01-01", "2024-01-01", "v2"⟩).length =
      List.length [[("k", PVal.str "9"), ("v", PVal.str "z"), ("status", PVal.str "1"),
        ("effective_end_date", PVal.str "2099-12-31")]] ∧
    termCond [[("k", PVal.str "9"), ("v", PVal.str "z"), ("status", PVal.str "1"),
        ("effective_end_date", PVal.str "2099-12-31")]] [] "k" ["k"]
      [("k", PVal.str "9"), ("v", PVal.str "z"), ("status", PVal.str "1"),
        ("effective_end_date", PVal.str "2099-12-31")] = true ∧
    termApply ⟨"0", "2020-01-01", "2024-01-01", "v2"⟩
        [("k", PVal.str "9"), ("v", PVal.str "z"), ("status", PVal.str "1"),
          ("effective_end_date", PVal.str "2099-12-31")] ∈
      termUpdate [[("k", PVal.str "9"), ("v", PVal.str "z"), ("status", PVal.str "1"),
        ("effective_end_date", PVal.str "2099-12-31")]] [] "k" ["k"]
        ⟨"0", "2020-01-01", "2024-01-01", "v2"⟩ ∧
    getCell (termApply ⟨"0", "2020-01-01", "2024-01-01", "v2"⟩
        [("k", PVal.str "9"), ("v", PVal.str "z"), ("status", PVal.str "1"),
          ("effective_end_date", PVal.str "2099-12-31")]) "status" = PVal.str "0" ∧
    getCell (termApply ⟨"0", "2020-01-01", "2024-01-01", "v2"⟩
        [("k", PVal.str "9"), ("v", PVal.str "z"), ("status", PVal.str "1"),
          ("effective_end_date", PVal.str "2099-12-31")]) "effective_end_date" =
      PVal.str "2024-01-01" ∧
    getCell (termApply ⟨"0", "2020-01-01", "2024-01-01", "v2"⟩
        [("k", PVal.str "9"), ("v", PVal.str "z"), ("status", PVal.str "1"),
          ("effective_end_date", PVal.str "2099-12-31")]) "v" =
      getCell [("k", PVal.str "9"), ("v", PVal.str "z"), ("status", PVal.str "1"),
        ("effective_end_date", PVal.str "2099-12-31")] "v" := by
  have h := C9_terminated_update_in_place
    [[("k", PVal.str "9"), ("v", PVal.str "z"), ("status", PVal.str "1"),
      ("effective_end_date", PVal.str "2099-12-31")]] [] "k" [] ⟨"0", "2020-01-01", "2024-01-01", "v2"⟩
    [("k", PVal.str "9"), ("v", PVal.str "z"), ("status", PVal.str "1"),
      ("effective_end_date", PVal.str "2099-12-31")]
    (by decide) (by decide) (by intro s hs; exact absurd hs (List.not_mem_nil s))
    (by decide) (by decide) (by decide)
  exact ⟨h.1, h.2.1, h.2.2.1, h.2.2.2.1, h.2.2.2.2.1,
    h.2.2.2.2.2 "v" (by decide) (by decide)⟩

/-- C10: when no target column is named `status` case-insensitively, the status-column discovery finds nothing and the classifiers' activity filter keeps every target row — both for `find_deleted_records` (original labels) and for `find_changed_records` (lowercased labels) — so termination and change detection operate over the whole target instead of failing or returning nothing. -/
theorem C10_no_status_column_all_active (T : DF)
    (h : ∀ c ∈ T.cols, strLower c ≠ "status") :
    statusColOf T.cols = none ∧ activeFilter T = T.rows ∧
    statusColOf (lowerDF T).cols = none ∧ activeFilter (lowerDF T) = (lowerDF T).rows := by
  have h1 : statusColOf T.cols = none :=
    List.find?_eq_none.mpr (by intro c hc; simpa using h c hc)
  have hlow : ∀ c ∈ (lowerDF T).cols, strLower c ≠ "status" := by
    intro c hc
    obtain ⟨c0, hc0, hc0e⟩ := List.mem_map.mp hc
    rw [← hc0e, strLower_idem]
    exact h c0 hc0
  have h2 : statusColOf (lowerDF T).cols = none :=
    List.find?_eq_none.mpr (by intro c hc; simpa using hlow c hc)
  refine ⟨h1, ?_, h2, ?_⟩
  · unfold activeFilter
    apply List.filter_eq_self.mpr
    intro r _
    unfold isActiveRow
    rw [h1]
  · unfold activeFilter
    apply List.filter_eq_self.mpr
    intro r _
    unfold isActiveRow
    rw [h2]

/-- C10 witness: a concrete status-less target passes through both activity filters unchanged. -/
theorem C10_no_status_column_all_active_witness :
    statusColOf (DF.cols ⟨["id", "VAL"], [[("id", PVal.str "1"), ("VAL", PVal.nan)]]⟩) = none ∧
    activeFilter ⟨["id", "VAL"], [[("id", PVal.str "1"), ("VAL", PVal.nan)]]⟩ =
      DF.rows ⟨["id", "VAL"], [[("id", PVal.str "1"), ("VAL", PVal.nan)]]⟩ ∧
    statusColOf (DF.cols (lowerDF ⟨["id", "VAL"], [[("id", PVal.str "1"), ("VAL", PVal.nan)]]⟩)) = none ∧
    activeFilter (lowerDF ⟨["id", "VAL"], [[("id", PVal.str "1"), ("VAL", PVal.nan)]]⟩) =
      DF.rows (lowerDF ⟨["id", "VAL"], [[("id", PVal.str "1"), ("VAL", PVal.nan)]]⟩) :=
  C10_no_status_column_all_active ⟨["id", "VAL"], [[("id", PVal.str "1"), ("VAL", PVal.nan)]]⟩
    (by decide)
